import Mathlib

/-
Shallow embedding of the crawler-bot repository (src/bot.py): a Telegram bot
with a single /stats command. Three HTTP fetchers (pool stats, XMR price,
USD-to-GHS rate) each perform one GET and parse one JSON body; the command
handler sends a provisional message, runs the three fetchers, and edits the
provisional message with either a formatted report or a fixed failure string.

HTTP responses are modelled as an abstract result (transport error, or a
status code together with an optionally-decodable JSON body). Python floats
are modelled as exact rationals; Python round() and the .2f / .8f format
specifiers use round-half-even, modelled on rationals. Python string
operations (str.isdigit, int()) are modelled over the ASCII-digit fragment.
A computation that would raise an exception not caught by the source's
except clauses is modelled by an explicit `uncaught` result.
-/

namespace CrawlerBot

/-- A JSON value, as produced by Python's json decoding: objects become
dicts (modelled as association lists, keys unique), arrays become lists,
numbers become int or float, plus strings, booleans and null. -/
inductive Json where
  | null : Json
  | bool (b : Bool) : Json
  | int (n : ℤ) : Json
  | float (q : ℚ) : Json
  | str (s : String) : Json
  | arr (xs : List Json) : Json
  | obj (fields : List (String × Json)) : Json

/-- Result of one HTTP GET: a transport-level failure (connection error,
timeout, ...), or a response with a status code and a body that either
decodes as JSON (`some j`) or does not (`none`). -/
inductive HttpResult where
  | transportError : HttpResult
  | response (status : ℕ) (body : Option Json) : HttpResult

/-- Outcome of running a Python function: a returned value, or an exception
that escapes every except clause of the function. -/
inductive PyResult (α : Type) where
  | ok (a : α) : PyResult α
  | uncaught : PyResult α
deriving DecidableEq

/-- The dictionary returned by get_xmr_pool_stats on success: keys
"hashrate", "workers", "pending_xmr". -/
structure PoolStats where
  hashrate : ℕ
  workers : ℕ
  pending_xmr : ℚ
deriving DecidableEq

/-- Python dict .get(key): the value stored under the key, if present. -/
def getField (fields : List (String × Json)) (k : String) : Option Json :=
  (fields.find? (fun p => p.1 == k)).map (fun p => p.2)

/-- Value of a decimal-digit string, as computed by Python int() on it. -/
def digitStringToNat (s : String) : ℕ :=
  s.data.foldl (fun a c => 10 * a + (c.toNat - 48)) 0

/-- Python str(value).isdigit() for a JSON-decoded value. str() of an int is
pure digits exactly when the int is nonnegative; str() of a float always
contains a dot, an exponent or letters; str() of None/True/False/list/dict
is never pure digits. Digits are modelled as ASCII digits. -/
def pyStrIsdigit : Json → Bool
  | Json.int n => decide (0 ≤ n)
  | Json.str s => !s.data.isEmpty && s.data.all (fun c => c.isDigit)
  | _ => false

/-- Python int(value) on a value whose str() form is pure digits. -/
def pyDigitsVal : Json → ℕ
  | Json.int n => n.toNat
  | Json.str s => digitStringToNat s
  | _ => 0

/-- The source's hashrate extraction:
int(hashrate) if str(hashrate).isdigit() else 0. -/
def pyParseHashrate (j : Json) : ℕ :=
  if pyStrIsdigit j then pyDigitsVal j else 0

/-- Python len() on a JSON-decoded value: defined for strings, lists and
dicts; raises TypeError (which the source catches) otherwise. -/
def pyLen : Json → Option ℕ
  | Json.str s => some s.length
  | Json.arr xs => some xs.length
  | Json.obj fields => some fields.length
  | _ => none

/-- Python value / 1_000_000_000_000 on a JSON-decoded value: defined for
numbers (bool counts as int); raises TypeError (which the source catches)
otherwise. -/
def pyDiv12 : Json → Option ℚ
  | Json.int n => some ((n : ℚ) / 1000000000000)
  | Json.float q => some (q / 1000000000000)
  | Json.bool b => some ((if b then 1 else 0) / 1000000000000)
  | _ => none

/-- Round a rational to the nearest integer, ties to even (the rounding of
Python round() and of fixed-point string formatting). -/
def roundHalfEven (q : ℚ) : ℤ :=
  let f := ⌊q⌋
  if q - f < 1 / 2 then f
  else if q - f > 1 / 2 then f + 1
  else if f % 2 = 0 then f else f + 1

/-- Python round(q, n): round to n fractional decimal digits, ties to even. -/
def pyRound (n : ℕ) (q : ℚ) : ℚ :=
  (roundHalfEven (q * 10 ^ n) : ℚ) / 10 ^ n

/-- Fixed-point decimal rendering with n fractional digits, as produced by
a Python format specifier such as :.2f or :.8f. -/
def formatFixed (n : ℕ) (q : ℚ) : String :=
  let r := roundHalfEven (q * 10 ^ n)
  let sign := if r < 0 then "-" else ""
  let m := r.natAbs
  let fracStr := toString (m % 10 ^ n)
  let pad := String.mk (List.replicate (n - fracStr.length) '0')
  sign ++ toString (m / 10 ^ n) ++ "." ++ pad ++ fracStr

/-- Python raise_for_status() raises exactly for status codes 400..599. -/
def badStatus (st : ℕ) : Prop := 400 ≤ st ∧ st < 600

instance (st : ℕ) : Decidable (badStatus st) := by
  unfold badStatus; infer_instance

/-- get_xmr_pool_stats: GET the pool endpoint for the wallet, on success
parse hashrate (int(h) if str(h).isdigit() else 0), workers
(len(data.get("workers", []))), and pending balance
(round(data.get("amtDue", 0) / 1_000_000_000_000, 8)). RequestException,
ValueError, KeyError and TypeError all yield None; a decoded body that is
not a JSON object raises AttributeError on data.get, which no except clause
catches. -/
def get_xmr_pool_stats (resp : HttpResult) : PyResult (Option PoolStats) :=
  match resp with
  | HttpResult.transportError => PyResult.ok none
  | HttpResult.response st body =>
    if badStatus st then PyResult.ok none
    else
      match body with
      | none => PyResult.ok none
      | some (Json.obj fields) =>
        let hashrate := pyParseHashrate ((getField fields "hash").getD (Json.int 0))
        match pyLen ((getField fields "workers").getD (Json.arr [])) with
        | none => PyResult.ok none
        | some w =>
          match pyDiv12 ((getField fields "amtDue").getD (Json.int 0)) with
          | none => PyResult.ok none
          | some q =>
            PyResult.ok (some { hashrate := hashrate, workers := w, pending_xmr := pyRound 8 q })
      | some _ => PyResult.uncaught

/-- get_xmr_to_usd_price: GET the CoinGecko endpoint and return
data.get("monero", \x7b\x7d).get("usd"); None on any caught failure. -/
def get_xmr_to_usd_price (resp : HttpResult) : PyResult (Option Json) :=
  match resp with
  | HttpResult.transportError => PyResult.ok none
  | HttpResult.response st body =>
    if badStatus st then PyResult.ok none
    else
      match body with
      | none => PyResult.ok none
      | some (Json.obj fields) =>
        match (getField fields "monero").getD (Json.obj []) with
        | Json.obj inner => PyResult.ok (getField inner "usd")
        | _ => PyResult.uncaught
      | some _ => PyResult.uncaught

/-- get_usd_to_ghs_rate: if the API key is missing, empty or the placeholder
"YOUR_EXCHANGERATE_API_KEY_HERE", return None without any network call;
otherwise GET the rate endpoint and return
data.get("conversion_rates", \x7b\x7d).get("GHS"). The Bool component
records whether a network call was issued. -/
def get_usd_to_ghs_rate (key : Option String) (resp : HttpResult) :
    PyResult (Option Json) × Bool :=
  if key = none ∨ key = some "" ∨ key = some "YOUR_EXCHANGERATE_API_KEY_HERE" then
    (PyResult.ok none, false)
  else
    match resp with
    | HttpResult.transportError => (PyResult.ok none, true)
    | HttpResult.response st body =>
      if badStatus st then (PyResult.ok none, true)
      else
        match body with
        | none => (PyResult.ok none, true)
        | some (Json.obj fields) =>
          match (getField fields "conversion_rates").getD (Json.obj []) with
          | Json.obj inner => (PyResult.ok (getField inner "GHS"), true)
          | _ => (PyResult.uncaught, true)
        | some _ => (PyResult.uncaught, true)

/-- Python s[-n:]: the last n characters of s (all of s when shorter). -/
def lastChars (n : ℕ) (s : String) : String :=
  String.mk (s.data.drop (s.data.length - n))

/-- One line of the /stats report, before string rendering. Each
constructor corresponds to one f-string appended to message_parts in
stats_command. -/
inductive Line where
  | header (suffix : String) : Line
  | separator : Line
  | workersLine (n : ℕ) : Line
  | hashrateLine (n : ℕ) : Line
  | pendingLine (q : ℚ) : Line
  | usdValue (q : ℚ) : Line
  | ghsValue (q : ℚ) : Line
  | rateUnavailable : Line
  | fiatUnavailable : Line
  | attributionLine : Line
deriving DecidableEq

/-- Python truthiness of an optional number: None and 0 (or 0.0) are falsy,
every other number is truthy. This is the test the handler applies to the
price and rate fetch results. -/
def pyTruthy : Option ℚ → Bool
  | none => false
  | some q => decide (q ≠ 0)

/-- The message_parts list built by stats_command once pool stats are
available: header with redacted wallet suffix, separator, workers,
hashrate, pending balance; then, if the price is truthy, the USD value
line followed by either the GHS value line (rate truthy) or the
rate-unavailable line; otherwise the fiat-unavailable line; then the
closing separator and attribution. -/
def message_parts (wallet : String) (s : PoolStats) (price rate : Option ℚ) :
    List Line :=
  [Line.header (lastChars 6 wallet), Line.separator,
   Line.workersLine s.workers, Line.hashrateLine s.hashrate,
   Line.pendingLine s.pending_xmr]
  ++ (if pyTruthy price then
        let pending_usd := s.pending_xmr * (price.getD 0)
        Line.usdValue pending_usd ::
          (if pyTruthy rate then [Line.ghsValue (pending_usd * (rate.getD 0))]
           else [Line.rateUnavailable])
      else [Line.fiatUnavailable])
  ++ [Line.separator, Line.attributionLine]

/-- String rendering of one report line, matching the f-strings of
stats_command character for character. -/
def render : Line → String
  | Line.header suffix => "⛏️ **Monero Mining Stats for ..." ++ suffix ++ "** ⛏️"
  | Line.separator => "------------------------------------"
  | Line.workersLine n => "Workers Online: " ++ toString n
  | Line.hashrateLine n => "Current Hashrate: " ++ toString n ++ " H/s"
  | Line.pendingLine q => "Pending Balance: " ++ formatFixed 8 q ++ " XMR"
  | Line.usdValue q => "Value (USD): $" ++ formatFixed 2 q
  | Line.ghsValue q => "Value (GHS): GH₵ " ++ formatFixed 2 q
  | Line.rateUnavailable => "Could not fetch GHS exchange rate to show value in Cedis."
  | Line.fiatUnavailable => "Could not fetch XMR price to show value in fiat."
  | Line.attributionLine => "Data from SupportXMR & CoinGecko."

/-- The provisional text sent before fetching. -/
def waitText : String := "Fetching your Monero mining stats, please wait..."

/-- The fixed failure string used when pool stats are unavailable. -/
def failText : String :=
  "Sorry, I couldn't fetch your mining pool stats right now. Please try again later."

/-- One Telegram bot API call made by the handler: send a new message, or
edit an existing message (the Bool records whether parse_mode Markdown was
passed). -/
inductive BotAction where
  | sendMessage (chatId msgId : ℕ) (text : String) : BotAction
  | editMessageText (chatId msgId : ℕ) (text : String) (markdown : Bool) : BotAction
deriving DecidableEq

/-- Inputs of one stats_command invocation: the configured wallet address,
the chat id, the message id the transport assigns to the provisional
message, and the outcomes of the three fetch calls made at lines 105-107,
in source order. Each fetch call either returns (a value, or None for
unavailable) or lets an uncaught exception escape (modelled by
`PyResult.uncaught`, reachable e.g. when the fetched body decodes to a
non-object JSON value); an uncaught exception aborts the handler at that
call, before any edit. -/
structure Env where
  wallet : String
  chatId : ℕ
  msgId : ℕ
  pool : PyResult (Option PoolStats)
  price : PyResult (Option ℚ)
  rate : PyResult (Option ℚ)

/-- stats_command: send the provisional message, then run the three fetch
calls in order; if any of them raises an uncaught exception the handler
dies there, leaving only the provisional send. Otherwise — pool stats
being a None-or-nonempty-dict, `if not pool_stats` tests exactly None —
either edit the provisional message to the fixed failure string and
return, or edit it to the joined report with Markdown parse mode. The
returned list is the sequence of bot API calls, in order. -/
def stats_command (env : Env) : List BotAction :=
  let provisional := BotAction.sendMessage env.chatId env.msgId waitText
  match env.pool with
  | PyResult.uncaught => [provisional]
  | PyResult.ok pool =>
    match env.price with
    | PyResult.uncaught => [provisional]
    | PyResult.ok price =>
      match env.rate with
      | PyResult.uncaught => [provisional]
      | PyResult.ok rate =>
        match pool with
        | none =>
          [provisional, BotAction.editMessageText env.chatId env.msgId failText false]
        | some s =>
          let final :=
            String.intercalate "\n" ((message_parts env.wallet s price rate).map render)
          [provisional, BotAction.editMessageText env.chatId env.msgId final true]

/-- C1, counterexample to the claim as stated: with the pool fetch
returning the unavailable sentinel but the price fetch raising an uncaught
exception (its body decoded to a non-object JSON value), the handler dies
at the price fetch call, before the edit — the action trace is the lone
provisional send, so the final message is the "please wait" text and the
fixed failure string is never delivered. -/
theorem stats_command_price_crash_counterexample :
    stats_command { wallet := "4AbcDEf", chatId := 7, msgId := 42,
                    pool := PyResult.ok none, price := PyResult.uncaught,
                    rate := PyResult.ok none } =
      [BotAction.sendMessage 7 42 waitText]
    ∧ BotAction.editMessageText 7 42 failText false ∉
        stats_command { wallet := "4AbcDEf", chatId := 7, msgId := 42,
                        pool := PyResult.ok none, price := PyResult.uncaught,
                        rate := PyResult.ok none } := by
  have e : stats_command { wallet := "4AbcDEf", chatId := 7, msgId := 42,
                           pool := PyResult.ok none, price := PyResult.uncaught,
                           rate := PyResult.ok none } =
      [BotAction.sendMessage 7 42 waitText] := rfl
  refine ⟨e, ?_⟩
  rw [e]
  simp

/-- C1 amended: For every invocation of the /stats command handler in
which the pool-stats fetch returns the unavailable sentinel and the price
fetch and the exchange-rate fetch both return (each a value or the
unavailable sentinel, rather than raising an uncaught exception), the
handler's final (edited) message is exactly the fixed failure string
"Sorry, I couldn't fetch your mining pool stats right now. Please try
again later.". -/
theorem stats_command_pool_failure (env : Env) (p r : Option ℚ)
    (h : env.pool = PyResult.ok none)
    (hp : env.price = PyResult.ok p) (hr : env.rate = PyResult.ok r) :
    stats_command env =
      [BotAction.sendMessage env.chatId env.msgId waitText,
       BotAction.editMessageText env.chatId env.msgId
         "Sorry, I couldn't fetch your mining pool stats right now. Please try again later."
         false] := by
  simp [stats_command, h, hp, hr, failText]

/-- Witness for the amended C1 at a concrete invocation with the price
fetch returning a value and the rate fetch returning the unavailable
sentinel. -/
theorem stats_command_pool_failure_witness :
    stats_command { wallet := "4AbcDEf", chatId := 7, msgId := 42,
                    pool := PyResult.ok none, price := PyResult.ok (some 160),
                    rate := PyResult.ok none } =
      [BotAction.sendMessage 7 42 waitText,
       BotAction.editMessageText 7 42
         "Sorry, I couldn't fetch your mining pool stats right now. Please try again later."
         false] :=
  stats_command_pool_failure _ (some 160) none rfl rfl rfl

/-- C2: For every invocation in which all three fetchers succeed (pool
stats, price, exchange rate all available), the converted-currency (GHS)
value shown equals balance × price × rate, with each stage rounded as
specified: the USD value rounded to 2 decimals and the converted-currency
value rounded to 2 decimals (the rounding happens at rendering, via the
.2f format). -/
theorem report_all_available (wallet : String) (s : PoolStats) (p r : ℚ)
    (hp : p ≠ 0) (hr : r ≠ 0) :
    message_parts wallet s (some p) (some r) =
      [Line.header (lastChars 6 wallet), Line.separator,
       Line.workersLine s.workers, Line.hashrateLine s.hashrate,
       Line.pendingLine s.pending_xmr,
       Line.usdValue (s.pending_xmr * p), Line.ghsValue (s.pending_xmr * p * r),
       Line.separator, Line.attributionLine]
    ∧ render (Line.usdValue (s.pending_xmr * p)) =
        "Value (USD): $" ++ formatFixed 2 (s.pending_xmr * p)
    ∧ render (Line.ghsValue (s.pending_xmr * p * r)) =
        "Value (GHS): GH₵ " ++ formatFixed 2 (s.pending_xmr * p * r) := by
  refine ⟨?_, rfl, rfl⟩
  simp [message_parts, pyTruthy, hp, hr]

/-- Witness for C2: pool stats with pending balance 3/2 XMR, price 160
USD/XMR, rate 15 GHS/USD. -/
theorem report_all_available_witness :
    message_parts "wallet4AbcDEf" ⟨1200, 2, 3 / 2⟩ (some 160) (some 15) =
      [Line.header (lastChars 6 "wallet4AbcDEf"), Line.separator,
       Line.workersLine 2, Line.hashrateLine 1200,
       Line.pendingLine (3 / 2),
       Line.usdValue (3 / 2 * 160), Line.ghsValue (3 / 2 * 160 * 15),
       Line.separator, Line.attributionLine]
    ∧ render (Line.usdValue (3 / 2 * 160)) =
        "Value (USD): $" ++ formatFixed 2 (3 / 2 * 160)
    ∧ render (Line.ghsValue (3 / 2 * 160 * 15)) =
        "Value (GHS): GH₵ " ++ formatFixed 2 (3 / 2 * 160 * 15) :=
  report_all_available "wallet4AbcDEf" ⟨1200, 2, 3 / 2⟩ 160 15
    (by norm_num) (by norm_num)

/-- C3: For any wallet address, if the pool endpoint returns a valid
payload containing an atomic-unit amount amtDue, the pending balance
computed by the pool-stats fetcher equals amtDue divided by 10^12, rounded
to 8 decimal digits. -/
theorem get_xmr_pool_stats_pending (st : ℕ) (fields : List (String × Json))
    (a : ℤ) (w : ℕ)
    (hst : st < 400)
    (hamt : getField fields "amtDue" = some (Json.int a))
    (hw : pyLen ((getField fields "workers").getD (Json.arr [])) = some w) :
    ∃ s : PoolStats,
      get_xmr_pool_stats (HttpResult.response st (some (Json.obj fields))) =
        PyResult.ok (some s)
      ∧ s.pending_xmr = pyRound 8 ((a : ℚ) / 10 ^ 12) := by
  have hbad : ¬ badStatus st := by
    unfold badStatus
    omega
  refine ⟨{ hashrate := pyParseHashrate ((getField fields "hash").getD (Json.int 0)),
            workers := w,
            pending_xmr := pyRound 8 ((a : ℚ) / 1000000000000) }, ?_, ?_⟩
  · simp only [get_xmr_pool_stats, if_neg hbad, hamt, hw, Option.getD_some, pyDiv12]
  · show pyRound 8 ((a : ℚ) / 1000000000000) = pyRound 8 ((a : ℚ) / 10 ^ 12)
    norm_num

/-- Witness for C3: status 200, amtDue 5500000000000 atomic units (5.5
XMR), one worker entry. -/
theorem get_xmr_pool_stats_pending_witness :
    ∃ s : PoolStats,
      get_xmr_pool_stats (HttpResult.response 200 (some (Json.obj
          [("hash", Json.int 1200), ("workers", Json.arr [Json.null]),
           ("amtDue", Json.int 5500000000000)]))) =
        PyResult.ok (some s)
      ∧ s.pending_xmr = pyRound 8 ((5500000000000 : ℚ) / 10 ^ 12) :=
  get_xmr_pool_stats_pending 200
    [("hash", Json.int 1200), ("workers", Json.arr [Json.null]),
     ("amtDue", Json.int 5500000000000)]
    5500000000000 1 (by norm_num) rfl rfl

/-- C5: For every key argument, if the exchange-rate fetcher is called with
an absent (empty/None) key or a key equal to the placeholder sentinel
"YOUR_EXCHANGERATE_API_KEY_HERE", it returns the unavailable sentinel and
never issues a network call, whatever the network would have answered. -/
theorem get_usd_to_ghs_rate_short_circuit (key : Option String) (resp : HttpResult)
    (h : key = none ∨ key = some "" ∨ key = some "YOUR_EXCHANGERATE_API_KEY_HERE") :
    get_usd_to_ghs_rate key resp = (PyResult.ok none, false) := by
  unfold get_usd_to_ghs_rate
  rw [if_pos h]

/-- Witness for C5: the placeholder key, facing a network that would have
returned a valid rate table. -/
theorem get_usd_to_ghs_rate_short_circuit_witness :
    get_usd_to_ghs_rate (some "YOUR_EXCHANGERATE_API_KEY_HERE")
      (HttpResult.response 200 (some (Json.obj
        [("conversion_rates", Json.obj [("GHS", Json.float (103 / 10))])]))) =
      (PyResult.ok none, false) :=
  get_usd_to_ghs_rate_short_circuit _ _ (Or.inr (Or.inr rfl))

/-- C6: For every invocation in which the pool-stats fetch succeeds but the
price fetch returns unavailable, the report contains the fiat-unavailable
explanatory line and contains no USD-value line and no converted-currency
(GHS) line. -/
theorem report_price_unavailable (wallet : String) (s : PoolStats) (rate : Option ℚ) :
    Line.fiatUnavailable ∈ message_parts wallet s none rate
    ∧ (∀ q : ℚ, Line.usdValue q ∉ message_parts wallet s none rate)
    ∧ (∀ q : ℚ, Line.ghsValue q ∉ message_parts wallet s none rate) := by
  simp [message_parts, pyTruthy]

/-- C7: For every invocation in which the pool-stats fetch and the price
fetch succeed but the exchange-rate fetch returns unavailable, the report
contains a USD-value line and a rate-unavailable explanatory line, and
contains no converted-currency (GHS) line. -/
theorem report_rate_unavailable (wallet : String) (s : PoolStats) (p : ℚ)
    (hp : p ≠ 0) :
    Line.usdValue (s.pending_xmr * p) ∈ message_parts wallet s (some p) none
    ∧ Line.rateUnavailable ∈ message_parts wallet s (some p) none
    ∧ (∀ q : ℚ, Line.ghsValue q ∉ message_parts wallet s (some p) none) := by
  simp [message_parts, pyTruthy, hp]

/-- Witness for C7 at a concrete pool result and price. -/
theorem report_rate_unavailable_witness :
    Line.usdValue ((3 : ℚ) / 2 * 160) ∈
        message_parts "wallet4AbcDEf" ⟨1200, 2, 3 / 2⟩ (some 160) none
    ∧ Line.rateUnavailable ∈
        message_parts "wallet4AbcDEf" ⟨1200, 2, 3 / 2⟩ (some 160) none
    ∧ (∀ q : ℚ, Line.ghsValue q ∉
        message_parts "wallet4AbcDEf" ⟨1200, 2, 3 / 2⟩ (some 160) none) :=
  report_rate_unavailable "wallet4AbcDEf" ⟨1200, 2, 3 / 2⟩ 160 (by norm_num)

/-- C10: If the price fetch or the exchange-rate fetch succeeds but returns
the numeric value exactly 0 (or 0.0), the report builder treats that value
the same as unavailable: a zero price yields the fiat-unavailable
explanatory line with no USD/GHS lines (and the same report as a price
fetch failure), and a zero rate yields the rate-unavailable line with no
GHS line (and the same report as a rate fetch failure), because
availability is tested by truthiness. -/
theorem report_zero_like_unavailable (wallet : String) (s : PoolStats) :
    (∀ rate : Option ℚ,
      message_parts wallet s (some 0) rate = message_parts wallet s none rate
      ∧ Line.fiatUnavailable ∈ message_parts wallet s (some 0) rate
      ∧ (∀ q : ℚ, Line.usdValue q ∉ message_parts wallet s (some 0) rate)
      ∧ (∀ q : ℚ, Line.ghsValue q ∉ message_parts wallet s (some 0) rate))
    ∧ (∀ p : ℚ, p ≠ 0 →
      message_parts wallet s (some p) (some 0) = message_parts wallet s (some p) none
      ∧ Line.usdValue (s.pending_xmr * p) ∈ message_parts wallet s (some p) (some 0)
      ∧ Line.rateUnavailable ∈ message_parts wallet s (some p) (some 0)
      ∧ (∀ q : ℚ, Line.ghsValue q ∉ message_parts wallet s (some p) (some 0))) := by
  constructor
  · intro rate
    refine ⟨?_, ?_⟩
    · simp [message_parts, pyTruthy]
    · simp [message_parts, pyTruthy]
  · intro p hp
    refine ⟨?_, ?_⟩
    · simp [message_parts, pyTruthy, hp]
    · simp [message_parts, pyTruthy, hp]

/-- Witness for C10 at a concrete pool result, with rate 15 for the
zero-price half and price 160 for the zero-rate half. -/
theorem report_zero_like_unavailable_witness :
    (message_parts "wallet4AbcDEf" ⟨1200, 2, 3 / 2⟩ (some 0) (some 15) =
        message_parts "wallet4AbcDEf" ⟨1200, 2, 3 / 2⟩ none (some 15)
      ∧ Line.fiatUnavailable ∈
          message_parts "wallet4AbcDEf" ⟨1200, 2, 3 / 2⟩ (some 0) (some 15)
      ∧ (∀ q : ℚ, Line.usdValue q ∉
          message_parts "wallet4AbcDEf" ⟨1200, 2, 3 / 2⟩ (some 0) (some 15))
      ∧ (∀ q : ℚ, Line.ghsValue q ∉
          message_parts "wallet4AbcDEf" ⟨1200, 2, 3 / 2⟩ (some 0) (some 15)))
    ∧ (message_parts "wallet4AbcDEf" ⟨1200, 2, 3 / 2⟩ (some 160) (some 0) =
        message_parts "wallet4AbcDEf" ⟨1200, 2, 3 / 2⟩ (some 160) none
      ∧ Line.usdValue ((3 : ℚ) / 2 * 160) ∈
          message_parts "wallet4AbcDEf" ⟨1200, 2, 3 / 2⟩ (some 160) (some 0)
      ∧ Line.rateUnavailable ∈
          message_parts "wallet4AbcDEf" ⟨1200, 2, 3 / 2⟩ (some 160) (some 0)
      ∧ (∀ q : ℚ, Line.ghsValue q ∉
          message_parts "wallet4AbcDEf" ⟨1200, 2, 3 / 2⟩ (some 160) (some 0))) :=
  ⟨(report_zero_like_unavailable "wallet4AbcDEf" ⟨1200, 2, 3 / 2⟩).1 (some 15),
   (report_zero_like_unavailable "wallet4AbcDEf" ⟨1200, 2, 3 / 2⟩).2 160 (by norm_num)⟩

/-- C8: For every successfully parsed pool payload, the extracted hashrate
tolerates the field being supplied as text: a value whose textual form is a
string of decimal digits is parsed to that integer, any value whose textual
form is not pure digits (including negative or fractional text) falls back
to zero, and in either case the fetcher still returns a populated result
(the hashrate slot being exactly pyParseHashrate of the field). -/
theorem hashrate_text_tolerance :
    (∀ s : String, s.data ≠ [] → (∀ c ∈ s.data, c.isDigit = true) →
        pyParseHashrate (Json.str s) = digitStringToNat s)
    ∧ (∀ j : Json, pyStrIsdigit j = false → pyParseHashrate j = 0)
    ∧ pyParseHashrate (Json.str "-5") = 0
    ∧ pyParseHashrate (Json.str "3.5") = 0
    ∧ (∀ (st : ℕ) (fields : List (String × Json)) (w : ℕ) (q : ℚ),
        ¬ badStatus st →
        pyLen ((getField fields "workers").getD (Json.arr [])) = some w →
        pyDiv12 ((getField fields "amtDue").getD (Json.int 0)) = some q →
        get_xmr_pool_stats (HttpResult.response st (some (Json.obj fields))) =
          PyResult.ok (some
            { hashrate := pyParseHashrate ((getField fields "hash").getD (Json.int 0)),
              workers := w, pending_xmr := pyRound 8 q })) := by
  refine ⟨?_, ?_, by decide, by decide, ?_⟩
  · intro s h1 h2
    have hne : s.data.isEmpty = false := by
      cases hd : s.data with
      | nil => exact absurd hd h1
      | cons c cs => rfl
    have hc : pyStrIsdigit (Json.str s) = true := by
      simp only [pyStrIsdigit, hne, Bool.not_false, Bool.true_and, List.all_eq_true]
      exact h2
    simp [pyParseHashrate, hc, pyDigitsVal]
  · intro j h
    simp [pyParseHashrate, h]
  · intro st fields w q hb hw hq
    simp only [get_xmr_pool_stats, if_neg hb, hw, hq]

/-- Witness for C8: the digit string "4321" parses to its value, null falls
back to zero, and a payload with a textual hashrate still yields a
populated result. -/
theorem hashrate_text_tolerance_witness :
    pyParseHashrate (Json.str "4321") = digitStringToNat "4321"
    ∧ pyParseHashrate Json.null = 0
    ∧ get_xmr_pool_stats (HttpResult.response 200 (some (Json.obj
        [("hash", Json.str "4321"), ("workers", Json.arr []),
         ("amtDue", Json.float (5 / 2))]))) =
      PyResult.ok (some
        { hashrate := pyParseHashrate ((getField
            [("hash", Json.str "4321"), ("workers", Json.arr []),
             ("amtDue", Json.float (5 / 2))] "hash").getD (Json.int 0)),
          workers := 0, pending_xmr := pyRound 8 ((5 / 2 : ℚ) / 1000000000000) }) :=
  ⟨hashrate_text_tolerance.1 "4321" (by decide) (by decide),
   hashrate_text_tolerance.2.1 Json.null rfl,
   hashrate_text_tolerance.2.2.2.2 200
     [("hash", Json.str "4321"), ("workers", Json.arr []),
      ("amtDue", Json.float (5 / 2))]
     0 ((5 / 2 : ℚ) / 1000000000000) (by decide) rfl rfl⟩

/-- C4, counterexample to the claim as stated: a 200 response whose body is
the empty JSON object has every expected field missing, yet the fetcher
does not return the unavailable sentinel — the .get defaults produce a
fully-populated result with hashrate 0, workers 0, pending balance 0. -/
theorem get_xmr_pool_stats_missing_fields_counterexample :
    get_xmr_pool_stats (HttpResult.response 200 (some (Json.obj []))) =
      PyResult.ok (some { hashrate := 0, workers := 0, pending_xmr := 0 })
    ∧ get_xmr_pool_stats (HttpResult.response 200 (some (Json.obj []))) ≠
        PyResult.ok none := by
  have e : get_xmr_pool_stats (HttpResult.response 200 (some (Json.obj []))) =
      PyResult.ok (some ⟨0, 0, pyRound 8 (((0 : ℤ) : ℚ) / 1000000000000)⟩) := rfl
  have h0 : pyRound 8 (((0 : ℤ) : ℚ) / 1000000000000) = 0 := by
    norm_num [pyRound, roundHalfEven]
  rw [h0] at e
  exact ⟨e, by rw [e]; simp⟩

/-- C4 amended: on any transport error, on any status in 400..599, or on a
body that does not decode as JSON, the fetcher returns the unavailable
sentinel; when the body decodes to a JSON object the result is never
partially populated — it is either the sentinel (a wrong-typed workers or
amtDue field raising a caught error) or a result carrying all three fields,
with missing fields filled from defaults rather than treated as errors; a
decoded body that is not a JSON object makes an uncaught exception escape
the fetcher. -/
theorem get_xmr_pool_stats_error_envelope :
    (get_xmr_pool_stats HttpResult.transportError = PyResult.ok none)
    ∧ (∀ (st : ℕ) (body : Option Json), 400 ≤ st → st < 600 →
        get_xmr_pool_stats (HttpResult.response st body) = PyResult.ok none)
    ∧ (∀ st : ℕ, ¬ badStatus st →
        get_xmr_pool_stats (HttpResult.response st none) = PyResult.ok none)
    ∧ (∀ (st : ℕ) (fields : List (String × Json)),
        get_xmr_pool_stats (HttpResult.response st (some (Json.obj fields))) =
          PyResult.ok none
        ∨ ∃ s : PoolStats,
            get_xmr_pool_stats (HttpResult.response st (some (Json.obj fields))) =
              PyResult.ok (some s))
    ∧ (∀ (st : ℕ) (j : Json), ¬ badStatus st → (∀ fields, j ≠ Json.obj fields) →
        get_xmr_pool_stats (HttpResult.response st (some j)) = PyResult.uncaught) := by
  refine ⟨rfl, ?_, ?_, ?_, ?_⟩
  · intro st body h1 h2
    simp only [get_xmr_pool_stats]
    rw [if_pos (show badStatus st from ⟨h1, h2⟩)]
  · intro st h
    simp only [get_xmr_pool_stats, if_neg h]
  · intro st fields
    by_cases hb : badStatus st
    · left
      simp only [get_xmr_pool_stats, if_pos hb]
    · cases hl : pyLen ((getField fields "workers").getD (Json.arr [])) with
      | none =>
        left
        simp only [get_xmr_pool_stats, if_neg hb, hl]
      | some w =>
        cases hd : pyDiv12 ((getField fields "amtDue").getD (Json.int 0)) with
        | none =>
          left
          simp only [get_xmr_pool_stats, if_neg hb, hl, hd]
        | some q =>
          right
          exact ⟨{ hashrate := pyParseHashrate ((getField fields "hash").getD (Json.int 0)),
                   workers := w, pending_xmr := pyRound 8 q },
                 by simp only [get_xmr_pool_stats, if_neg hb, hl, hd]⟩
  · intro st j hb hobj
    cases j with
    | obj fields => exact absurd rfl (hobj fields)
    | null => simp only [get_xmr_pool_stats, if_neg hb]
    | bool b => simp only [get_xmr_pool_stats, if_neg hb]
    | int n => simp only [get_xmr_pool_stats, if_neg hb]
    | float q => simp only [get_xmr_pool_stats, if_neg hb]
    | str s => simp only [get_xmr_pool_stats, if_neg hb]
    | arr xs => simp only [get_xmr_pool_stats, if_neg hb]

/-- Witness for the amended C4: a 503 status yields the sentinel, an
undecodable 200 body yields the sentinel, and a 200 body decoding to a
JSON array escapes as an uncaught exception. -/
theorem get_xmr_pool_stats_error_envelope_witness :
    get_xmr_pool_stats (HttpResult.response 503 (some (Json.obj []))) =
      PyResult.ok none
    ∧ get_xmr_pool_stats (HttpResult.response 200 none) = PyResult.ok none
    ∧ get_xmr_pool_stats (HttpResult.response 200 (some (Json.arr []))) =
        PyResult.uncaught :=
  ⟨get_xmr_pool_stats_error_envelope.2.1 503 (some (Json.obj []))
     (by norm_num) (by norm_num),
   get_xmr_pool_stats_error_envelope.2.2.1 200 (by decide),
   get_xmr_pool_stats_error_envelope.2.2.2.2 200 (Json.arr []) (by decide)
     (fun fields h => Json.noConfusion h)⟩

end CrawlerBot
